import Mathlib

/-!
Formal model of the anti-spoofing verification pipeline of the
realtime-attendance-tracker web application.

The development shallowly embeds the pure logic of the pipeline:

* `src/lib/devToolsDetector.ts` — GPS-reading validation (`validateGPSReading`)
  and static-sample analysis (`analyzeLocationSamples`);
* `src/components/LocationVerifier.tsx` — the location-verification run
  (`verifyLocation`) and the haversine distance (`calculateDistance`);
* `src/pages/StudentAttendance.tsx` — the wiring of the verifier into the
  student page (no target geofence is passed);
* `src/lib/deviceFingerprint.ts` — fingerprint serialization, SHA-256
  hashing, and consistency checking (`verifyDeviceConsistency`);
* `src/components/DeviceVerifier.tsx` — the mirrored device check
  (`verifyDevice`);
* `src/lib/codeGenerator.ts` — secure code generation (`generateSecureCode`);
* `src/components/StudentForm.tsx` — submission error handling
  (`handleFormSubmit`);
* `src/components/TimeWindowCheck.tsx` — the time-window validity check;
* the export utility — its copy of the haversine distance.

Numbers that the JavaScript code stores in IEEE doubles and compares with
`===`, `<`, `>` are modelled as rationals (`ℚ`), which keeps every comparison
the code performs decidable and executable; the transcendental haversine
formula is modelled over the reals (`ℝ`).  Timestamps are integers
(milliseconds).  Nullable platform values are `Option`s, and browser state
(localStorage, the insert result of the persistence layer, the collected GPS
samples) is passed explicitly.
-/

/-- Model of the browser `GeolocationCoordinates` record.  The fields the
pipeline reads are `latitude`, `longitude`, `accuracy` (always present,
numeric) and `altitude`, `speed` (nullable). -/
structure GeolocationCoordinates where
  latitude : ℚ
  longitude : ℚ
  accuracy : ℚ
  altitude : Option ℚ
  altitudeAccuracy : Option ℚ
  heading : Option ℚ
  speed : Option ℚ
deriving DecidableEq, Repr

/-- Model of the browser `GeolocationPosition`: coordinates plus a capture
timestamp in milliseconds. -/
structure GeolocationPosition where
  coords : GeolocationCoordinates
  timestamp : ℤ
deriving DecidableEq, Repr

/-- Result record of `analyzeLocationSamples`. -/
structure LocationAnalysis where
  isSuspicious : Bool
  reason : String
deriving DecidableEq, Repr

/-- Reason string produced by `analyzeLocationSamples` for static readings. -/
def staticReadingsReason : String :=
  "GPS readings are perfectly identical across samples — likely spoofed"

/-- Embedding of `analyzeLocationSamples` from `src/lib/devToolsDetector.ts`:
fewer than 2 samples are never suspicious; otherwise, if every sample's
latitude and longitude equal the first sample's and every sample's accuracy
equals the first sample's, the readings are flagged as suspicious. -/
def analyzeLocationSamples (samples : List GeolocationPosition) : LocationAnalysis :=
  match samples with
  | [] => { isSuspicious := false, reason := "" }
  | s0 :: rest =>
    if (s0 :: rest).length < 2 then { isSuspicious := false, reason := "" }
    else
      let allExactlySame := (s0 :: rest).all fun s =>
        decide (s.coords.latitude = s0.coords.latitude ∧
                s.coords.longitude = s0.coords.longitude)
      if allExactlySame then
        let allSameAccuracy := (s0 :: rest).all fun s =>
          decide (s.coords.accuracy = s0.coords.accuracy)
        if allSameAccuracy then
          { isSuspicious := true, reason := staticReadingsReason }
        else { isSuspicious := false, reason := "" }
      else { isSuspicious := false, reason := "" }

/-- Specification-side predicate: every sample's latitude, longitude and
accuracy are exactly equal to the first sample's. -/
def staticSamples : List GeolocationPosition → Prop
  | [] => True
  | s0 :: rest =>
    ∀ s ∈ s0 :: rest,
      s.coords.latitude = s0.coords.latitude ∧
      s.coords.longitude = s0.coords.longitude ∧
      s.coords.accuracy = s0.coords.accuracy

instance staticSamplesDecidable : (samples : List GeolocationPosition) →
    Decidable (staticSamples samples)
  | [] => .isTrue trivial
  | _ :: _ => List.decidableBAll _ _

/-- Result record of `validateGPSReading`. -/
structure GPSValidation where
  isValid : Bool
  warnings : List String
deriving DecidableEq, Repr

/-- Embedding of `validateGPSReading` from `src/lib/devToolsDetector.ts`:
each of the four quality conditions appends one warning, in source order, and
the reading is valid exactly when no warning was appended. -/
def validateGPSReading (coords : GeolocationCoordinates) : GPSValidation :=
  let warnings0 : List String := []
  let warnings1 :=
    if coords.accuracy = 0 then
      warnings0 ++ ["GPS accuracy is exactly 0 — likely spoofed"]
    else warnings0
  let warnings2 :=
    if coords.accuracy < 1 then
      warnings1 ++ ["GPS accuracy is suspiciously precise"]
    else warnings1
  let warnings3 :=
    if coords.altitude = none ∧ coords.accuracy < 10 then
      warnings2 ++ ["High accuracy but no altitude data — possible spoofing"]
    else warnings2
  let warnings4 :=
    match coords.speed with
    | some sp =>
      if 100 < sp then warnings3 ++ ["Unrealistic movement speed detected"]
      else warnings3
    | none => warnings3
  { isValid := warnings4.isEmpty, warnings := warnings4 }

/-- Result record of `verifyDeviceConsistency` from
`src/lib/deviceFingerprint.ts`. -/
structure ConsistencyResult where
  isConsistent : Bool
  currentFingerprint : String
  storedFingerprint : Option String
deriving DecidableEq, Repr

/-- Embedding of `verifyDeviceConsistency`: `current` is the freshly computed
fingerprint and `store` the `localStorage` slot `device_fingerprint` (absent
modelled as `none`).  Returns the result record together with the store state
after the call. -/
def verifyDeviceConsistency (current : String) (store : Option String) :
    ConsistencyResult × Option String :=
  match store with
  | none =>
    ({ isConsistent := true, currentFingerprint := current,
       storedFingerprint := none }, some current)
  | some stored =>
    ({ isConsistent := decide (current = stored), currentFingerprint := current,
       storedFingerprint := some stored }, some stored)

/-- Terminal statuses of the `DeviceVerifier` component. -/
inductive DeviceStatus where
  | verified
  | failed
deriving DecidableEq, Repr

/-- Outcome of one run of `verifyDevice` in
`src/components/DeviceVerifier.tsx`: the terminal status, the arguments of the
`onVerificationComplete` callback, and the store state after the run. -/
structure DeviceVerifyOutcome where
  status : DeviceStatus
  reportedVerified : Bool
  reportedFingerprint : Option String
  newStore : Option String
deriving DecidableEq, Repr

/-- Embedding of `verifyDevice` from `src/components/DeviceVerifier.tsx`. -/
def verifyDevice (current : String) (store : Option String) : DeviceVerifyOutcome :=
  match store with
  | none =>
    { status := .verified, reportedVerified := true,
      reportedFingerprint := some current, newStore := some current }
  | some stored =>
    if current = stored then
      { status := .verified, reportedVerified := true,
        reportedFingerprint := some current, newStore := some stored }
    else
      { status := .failed, reportedVerified := false,
        reportedFingerprint := none, newStore := some stored }

/-- The fixed 32-character alphabet of `src/lib/codeGenerator.ts`. -/
def ALPHANUMERIC : String := "ABCDEFGHJKLMNPQRSTUVWXYZ23456789"

/-- Embedding of `generateSecureCode`: `draws` is the array filled by
`crypto.getRandomValues(new Uint32Array(length))`, so `draws.length` is the
requested length; each draw indexes the alphabet modulo its size. -/
def generateSecureCode (draws : List Nat) : String :=
  String.mk (draws.map fun v => ALPHANUMERIC.data.getD (v % ALPHANUMERIC.data.length) 'A')

/-- Outcome of the `attendance_records` insert as seen by the submit handler:
success, or a database error with a code and a message. -/
inductive InsertOutcome where
  | ok
  | dbError (code : String) (message : String)
deriving DecidableEq, Repr

/-- The component state of `StudentForm` that `handleFormSubmit` mutates. -/
structure FormState where
  isSubmitting : Bool
  isSubmitted : Bool
deriving DecidableEq, Repr

/-- Form state when `handleFormSubmit` is entered: not submitting, not
submitted. -/
def initialFormState : FormState := { isSubmitting := false, isSubmitted := false }

/-- A toast surfaced to the user: a success toast or an error toast. -/
inductive Toast where
  | success (message : String)
  | errorMsg (message : String)
deriving DecidableEq, Repr

/-- Observable outcome of one call of `handleFormSubmit`: the form state after
the handler returns, whether the `onSubmit` callback was invoked, and the
toast that was shown. -/
structure SubmitOutcome where
  finalState : FormState
  onSubmitCalled : Bool
  toast : Toast
deriving DecidableEq, Repr

/-- The distinct duplicate-submission message of `StudentForm`. -/
def duplicateAttendanceMessage : String :=
  "You have already recorded attendance for this session"

/-- Embedding of `handleFormSubmit` from `src/components/StudentForm.tsx`.
On success the handler leaves `isSubmitting` set (the success screen replaces
the form) and marks `isSubmitted`; on the uniqueness-violation code `23505` it
shows the distinct duplicate message, resets `isSubmitting` and returns; any
other error is re-thrown into the catch block, which shows `error.message`
falling back to the generic text when the message is empty. -/
def handleFormSubmit (insertResult : InsertOutcome) : SubmitOutcome :=
  match insertResult with
  | .ok =>
    { finalState := { isSubmitting := true, isSubmitted := true },
      onSubmitCalled := true,
      toast := .success "Attendance recorded successfully!" }
  | .dbError code message =>
    if code = "23505" then
      { finalState := { isSubmitting := false, isSubmitted := false },
        onSubmitCalled := false,
        toast := .errorMsg duplicateAttendanceMessage }
    else
      { finalState := { isSubmitting := false, isSubmitted := false },
        onSubmitCalled := false,
        toast := .errorMsg (if message.isEmpty then "Failed to record attendance" else message) }

/-- Messages produced by the time-window check; the locale-formatted time
string of the source is abstracted to the start instant it renders. -/
inductive TimeMessage where
  | active
  | startsAt (startTime : ℤ)
  | ended
  | remaining (minutes : ℤ)
deriving DecidableEq, Repr

/-- Result of the time-window effect of `TimeWindowCheck`. -/
structure TimeCheck where
  isValid : Bool
  message : TimeMessage
deriving DecidableEq, Repr

/-- Embedding of the validity effect of
`src/components/TimeWindowCheck.tsx`: instants are milliseconds since the
epoch.  Missing bounds (either one) make the check trivially valid; otherwise
the current instant is compared against the window and the remaining minutes
are the ceiling of the millisecond difference over 60000. -/
def timeWindowCheck (now : ℤ) (sessionStartTime sessionEndTime : Option ℤ) : TimeCheck :=
  match sessionStartTime, sessionEndTime with
  | some startMs, some endMs =>
    if now < startMs then { isValid := false, message := .startsAt startMs }
    else if endMs < now then { isValid := false, message := .ended }
    else { isValid := true, message := .remaining ⌈((endMs - now : ℚ)) / 60000⌉ }
  | _, _ => { isValid := true, message := .active }

/-- A concrete GPS position used by witness instantiations. -/
def testPosition : GeolocationPosition :=
  { coords :=
      { latitude := 19, longitude := 72, accuracy := 5,
        altitude := none, altitudeAccuracy := none, heading := none,
        speed := none },
    timestamp := 0 }

/-- A reading with accuracy exactly 0 (altitude present, speed absent). -/
def readingAccuracyZero : GeolocationCoordinates :=
  { latitude := 19, longitude := 72, accuracy := 0, altitude := some 10,
    altitudeAccuracy := none, heading := none, speed := none }

/-- A reading with accuracy 0.5 (altitude present, speed absent). -/
def readingAccuracyHalf : GeolocationCoordinates :=
  { latitude := 19, longitude := 72, accuracy := mkRat 1 2, altitude := some 10,
    altitudeAccuracy := none, heading := none, speed := none }

/-- A reading with accuracy 5 and null altitude. -/
def readingAccuracyFiveNoAltitude : GeolocationCoordinates :=
  { latitude := 19, longitude := 72, accuracy := 5, altitude := none,
    altitudeAccuracy := none, heading := none, speed := none }

/-- A reading with accuracy 50 and null altitude. -/
def readingAccuracyFiftyNoAltitude : GeolocationCoordinates :=
  { latitude := 19, longitude := 72, accuracy := 50, altitude := none,
    altitudeAccuracy := none, heading := none, speed := none }

/-- A reading with speed 150 (accuracy and altitude unsuspicious). -/
def readingSpeed150 : GeolocationCoordinates :=
  { latitude := 19, longitude := 72, accuracy := 20, altitude := some 10,
    altitudeAccuracy := none, heading := none, speed := some 150 }

/-- JavaScript `Math.atan2(y, x)`, modelled over the reals (signed zeros and
NaN aside): the angle of the point `(x, y)`. -/
noncomputable def atan2 (y x : ℝ) : ℝ :=
  if 0 < x then Real.arctan (y / x)
  else if x < 0 ∧ 0 ≤ y then Real.arctan (y / x) + Real.pi
  else if x < 0 ∧ y < 0 then Real.arctan (y / x) - Real.pi
  else if x = 0 ∧ 0 < y then Real.pi / 2
  else if x = 0 ∧ y < 0 then -(Real.pi / 2)
  else 0

/-- Embedding of `calculateDistance` from
`src/components/LocationVerifier.tsx`: the haversine great-circle distance in
meters with Earth radius `6371e3`. -/
noncomputable def calculateDistance (lat1 lon1 lat2 lon2 : ℝ) : ℝ :=
  let R : ℝ := 6371e3
  let phi1 := lat1 * Real.pi / 180
  let phi2 := lat2 * Real.pi / 180
  let dphi := (lat2 - lat1) * Real.pi / 180
  let dlam := (lon2 - lon1) * Real.pi / 180
  let a := Real.sin (dphi / 2) * Real.sin (dphi / 2) +
    Real.cos phi1 * Real.cos phi2 * Real.sin (dlam / 2) * Real.sin (dlam / 2)
  let c := 2 * atan2 (Real.sqrt a) (Real.sqrt (1 - a))
  R * c

/-- Embedding of the export utility's private copy of `calculateDistance`,
textually identical to the verifier's. -/
noncomputable def exportCalculateDistance (lat1 lon1 lat2 lon2 : ℝ) : ℝ :=
  let R : ℝ := 6371e3
  let phi1 := lat1 * Real.pi / 180
  let phi2 := lat2 * Real.pi / 180
  let dphi := (lat2 - lat1) * Real.pi / 180
  let dlam := (lon2 - lon1) * Real.pi / 180
  let a := Real.sin (dphi / 2) * Real.sin (dphi / 2) +
    Real.cos phi1 * Real.cos phi2 * Real.sin (dlam / 2) * Real.sin (dlam / 2)
  let c := 2 * atan2 (Real.sqrt a) (Real.sqrt (1 - a))
  R * c

/-- The haversine quantity `a` of the source, as a standalone function used
to state unfolding and symmetry lemmas. -/
noncomputable def haversineA (lat1 lon1 lat2 lon2 : ℝ) : ℝ :=
  Real.sin ((lat2 - lat1) * Real.pi / 180 / 2) *
    Real.sin ((lat2 - lat1) * Real.pi / 180 / 2) +
  Real.cos (lat1 * Real.pi / 180) * Real.cos (lat2 * Real.pi / 180) *
    Real.sin ((lon2 - lon1) * Real.pi / 180 / 2) *
    Real.sin ((lon2 - lon1) * Real.pi / 180 / 2)

/-- The `targetLocation` prop of `LocationVerifier`. -/
structure TargetLocation where
  lat : ℚ
  lng : ℚ
  radiusMeters : ℚ
deriving DecidableEq, Repr

/-- Result record of `checkLocationSpoofing` (the API-integrity probe); its
browser-dependent detection is treated as an input of the run. -/
structure SpoofCheckResult where
  isSuspicious : Bool
  reasons : List String
deriving DecidableEq, Repr

/-- Error codes of a failed geolocation acquisition. -/
inductive GeolocationErrorCode where
  | permissionDenied
  | positionUnavailable
  | locationTimeout
  | unknown
deriving DecidableEq, Repr

/-- Statuses of the `LocationVerifier` component. -/
inductive LocationStatus where
  | idle
  | requesting
  | verifying
  | verified
  | failed
  | spoofed
deriving DecidableEq, Repr

/-- Observable outcome of one run of `verifyLocation`: the terminal status,
the arguments of `onVerificationComplete`, the spoof warnings shown, and
whether the geofence distance comparison was reached. -/
structure LocationOutcome where
  status : LocationStatus
  reportedVerified : Bool
  reportedCoords : Option GeolocationCoordinates
  spoofWarnings : List String
  distanceChecked : Bool
deriving DecidableEq, Repr

/-- Embedding of `verifyLocation` from `src/components/LocationVerifier.tsx`
(the anti-spoofing variant).  The run's environment-dependent inputs are
passed explicitly: whether `navigator.geolocation` exists, the result of
`checkLocationSpoofing`, and the result of `collectLocationSamples(3, 800)`
(all-or-nothing, so either an error code or the full sample list). -/
noncomputable def verifyLocation (geolocationSupported : Bool)
    (spoofCheck : SpoofCheckResult)
    (samplesResult : Except GeolocationErrorCode (List GeolocationPosition))
    (targetLocation : Option TargetLocation) : LocationOutcome :=
  if !geolocationSupported then
    { status := .failed, reportedVerified := false, reportedCoords := none,
      spoofWarnings := [], distanceChecked := false }
  else if spoofCheck.isSuspicious then
    { status := .spoofed, reportedVerified := false, reportedCoords := none,
      spoofWarnings := spoofCheck.reasons, distanceChecked := false }
  else
    match samplesResult with
    | .error _ =>
      { status := .failed, reportedVerified := false, reportedCoords := none,
        spoofWarnings := [], distanceChecked := false }
    | .ok samples =>
      if (analyzeLocationSamples samples).isSuspicious then
        { status := .spoofed, reportedVerified := false, reportedCoords := none,
          spoofWarnings := [(analyzeLocationSamples samples).reason],
          distanceChecked := false }
      else
        match samples.getLast? with
        | none =>
          { status := .failed, reportedVerified := false, reportedCoords := none,
            spoofWarnings := [], distanceChecked := false }
        | some position =>
          let gpsValidation := validateGPSReading position.coords
          let shownWarnings :=
            if gpsValidation.isValid then [] else gpsValidation.warnings
          match targetLocation with
          | none =>
            { status := .verified, reportedVerified := true,
              reportedCoords := some position.coords,
              spoofWarnings := shownWarnings, distanceChecked := false }
          | some target =>
            if calculateDistance (position.coords.latitude : ℝ)
                (position.coords.longitude : ℝ) (target.lat : ℝ)
                (target.lng : ℝ) ≤ (target.radiusMeters : ℝ) then
              { status := .verified, reportedVerified := true,
                reportedCoords := some position.coords,
                spoofWarnings := shownWarnings, distanceChecked := true }
            else
              { status := .failed, reportedVerified := false,
                reportedCoords := none,
                spoofWarnings := shownWarnings, distanceChecked := true }

/-- The `targetLocation` prop that `src/pages/StudentAttendance.tsx` passes
to `LocationVerifier`: none is passed, so the geofence is absent. -/
def studentAttendanceTargetLocation : Option TargetLocation := none

/-- Step statuses of the student attendance page. -/
inductive StepStatus where
  | pending
  | verifying
  | verified
  | failed
deriving DecidableEq, Repr

/-- Embedding of `handleLocationVerification` from
`src/pages/StudentAttendance.tsx`: the Location step status it sets and the
user location it stores. -/
def handleLocationVerification (verified : Bool)
    (coords : Option GeolocationCoordinates) : StepStatus × Option (ℚ × ℚ) :=
  (if verified then .verified else .failed,
   match verified, coords with
   | true, some c => some (c.latitude, c.longitude)
   | _, _ => none)

/-- The `FingerprintData` record of `src/lib/deviceFingerprint.ts`; optional
fields model the TypeScript fields that can be `undefined` (omitted by
`JSON.stringify`). -/
structure FingerprintData where
  userAgent : String
  language : String
  platform : String
  screenResolution : String
  timezone : String
  cookiesEnabled : Bool
  colorDepth : Nat
  deviceMemory : Option ℚ
  hardwareConcurrency : Option Nat
  touchSupport : Bool
  webglVendor : Option String
  webglRenderer : Option String
  canvasHash : Option String
deriving DecidableEq, Repr

/-- JSON escaping of one character (quote and backslash; rarer control-code
escapes do not occur in the modelled signals). -/
def jsonEscapeChar (c : Char) : String :=
  if c = '\\' then "\\\\"
  else if c = '"' then "\\\""
  else String.singleton c

/-- A JSON string literal. -/
def jsonString (s : String) : String :=
  "\"" ++ String.join (s.data.map jsonEscapeChar) ++ "\""

/-- A JSON rendering of a numeric signal; a fixed deterministic rendering
standing in for JavaScript number formatting. -/
def jsonNumber (q : ℚ) : String := toString q

/-- Embedding of `JSON.stringify(data)` over the `FingerprintData` object
literal of `collectFingerprintData`: keys in insertion order, fields that are
`undefined` omitted. -/
def serializeFingerprintData (d : FingerprintData) : String :=
  "\x7b\"userAgent\":" ++ jsonString d.userAgent ++
  ",\"language\":" ++ jsonString d.language ++
  ",\"platform\":" ++ jsonString d.platform ++
  ",\"screenResolution\":" ++ jsonString d.screenResolution ++
  ",\"timezone\":" ++ jsonString d.timezone ++
  ",\"cookiesEnabled\":" ++ (if d.cookiesEnabled then "true" else "false") ++
  ",\"colorDepth\":" ++ toString d.colorDepth ++
  (match d.deviceMemory with
   | some m => ",\"deviceMemory\":" ++ jsonNumber m
   | none => "") ++
  (match d.hardwareConcurrency with
   | some n => ",\"hardwareConcurrency\":" ++ toString n
   | none => "") ++
  ",\"touchSupport\":" ++ (if d.touchSupport then "true" else "false") ++
  (match d.webglVendor with
   | some v => ",\"webglVendor\":" ++ jsonString v
   | none => "") ++
  (match d.webglRenderer with
   | some r => ",\"webglRenderer\":" ++ jsonString r
   | none => "") ++
  (match d.canvasHash with
   | some h => ",\"canvasHash\":" ++ jsonString h
   | none => "") ++
  "\x7d"

/-- Reduction to 32 bits. -/
def w32 (n : Nat) : Nat := n % 4294967296

/-- 32-bit right rotation. -/
def rotr (n x : Nat) : Nat := w32 (x <<< (32 - n)) ||| (x >>> n)

/-- The 64 SHA-256 round constants (FIPS 180-4), written in decimal. -/
def sha256K : List Nat :=
  [1116352408, 1899447441, 3049323471, 3921009573,
   961987163, 1508970993, 2453635748, 2870763221,
   3624381080, 310598401, 607225278, 1426881987,
   1925078388, 2162078206, 2614888103, 3248222580,
   3835390401, 4022224774, 264347078, 604807628,
   770255983, 1249150122, 1555081692, 1996064986,
   2554220882, 2821834349, 2952996808, 3210313671,
   3336571891, 3584528711, 113926993, 338241895,
   666307205, 773529912, 1294757372, 1396182291,
   1695183700, 1986661051, 2177026350, 2456956037,
   2730485921, 2820302411, 3259730800, 3345764771,
   3516065817, 3600352804, 4094571909, 275423344,
   430227734, 506948616, 659060556, 883997877,
   958139571, 1322822218, 1537002063, 1747873779,
   1955562222, 2024104815, 2227730452, 2361852424,
   2428436474, 2756734187, 3204031479, 3329325298]

/-- UTF-8 encoding of one character (the byte stream `TextEncoder`
produces). -/
def utf8EncodeChar (c : Char) : List Nat :=
  let n := c.toNat
  if n < 0x80 then [n]
  else if n < 0x800 then
    [0xC0 ||| (n >>> 6), 0x80 ||| (n &&& 0x3F)]
  else if n < 0x10000 then
    [0xE0 ||| (n >>> 12), 0x80 ||| ((n >>> 6) &&& 0x3F), 0x80 ||| (n &&& 0x3F)]
  else
    [0xF0 ||| (n >>> 18), 0x80 ||| ((n >>> 12) &&& 0x3F),
     0x80 ||| ((n >>> 6) &&& 0x3F), 0x80 ||| (n &&& 0x3F)]

/-- UTF-8 bytes of a string. -/
def stringToBytes (s : String) : List Nat := s.data.flatMap utf8EncodeChar

/-- SHA-256 padding: `0x80`, zeros to 56 mod 64, then the 64-bit big-endian
bit length. -/
def sha256Pad (msg : List Nat) : List Nat :=
  let bitLen := 8 * msg.length
  let padZeros := (119 - msg.length % 64) % 64
  msg ++ [0x80] ++ List.replicate padZeros 0 ++
    ((List.range 8).map fun i => (bitLen >>> (8 * (7 - i))) &&& 0xFF)

/-- Split a byte list into 64-byte chunks. -/
def toChunks (bs : List Nat) : List (List Nat) :=
  if h : bs = [] then []
  else
    have : (bs.drop 64).length < bs.length := by
      have hpos : 0 < bs.length := List.length_pos.mpr h
      simp only [List.length_drop]
      omega
    bs.take 64 :: toChunks (bs.drop 64)
termination_by bs.length

/-- The 16 big-endian 32-bit words of a 64-byte chunk. -/
def chunkWords (chunk : List Nat) : List Nat :=
  (List.range 16).map fun i =>
    (chunk.getD (4 * i) 0) <<< 24 ||| (chunk.getD (4 * i + 1) 0) <<< 16 |||
    (chunk.getD (4 * i + 2) 0) <<< 8 ||| chunk.getD (4 * i + 3) 0

/-- One message-schedule extension step appending word `w.length`. -/
def scheduleStep (w : List Nat) : List Nat :=
  let i := w.length
  let x15 := w.getD (i - 15) 0
  let x2 := w.getD (i - 2) 0
  let s0 := rotr 7 x15 ^^^ rotr 18 x15 ^^^ (x15 >>> 3)
  let s1 := rotr 17 x2 ^^^ rotr 19 x2 ^^^ (x2 >>> 10)
  w ++ [w32 (w.getD (i - 16) 0 + s0 + w.getD (i - 7) 0 + s1)]

/-- The full 64-word message schedule of a chunk. -/
def fullSchedule (w16 : List Nat) : List Nat :=
  (List.range 48).foldl (fun w _ => scheduleStep w) w16

/-- The eight 32-bit working variables of SHA-256. -/
structure Sha256State where
  a : Nat
  b : Nat
  c : Nat
  d : Nat
  e : Nat
  f : Nat
  g : Nat
  h : Nat
deriving DecidableEq, Repr

/-- One SHA-256 compression round with round constant and schedule word. -/
def compressStep (st : Sha256State) (kw : Nat × Nat) : Sha256State :=
  let S1 := rotr 6 st.e ^^^ rotr 11 st.e ^^^ rotr 25 st.e
  let ch := (st.e &&& st.f) ^^^ ((4294967295 ^^^ st.e) &&& st.g)
  let temp1 := w32 (st.h + S1 + ch + kw.1 + kw.2)
  let S0 := rotr 2 st.a ^^^ rotr 13 st.a ^^^ rotr 22 st.a
  let maj := (st.a &&& st.b) ^^^ (st.a &&& st.c) ^^^ (st.b &&& st.c)
  let temp2 := w32 (S0 + maj)
  { a := w32 (temp1 + temp2), b := st.a, c := st.b, d := st.c,
    e := w32 (st.d + temp1), f := st.e, g := st.f, h := st.g }

/-- The SHA-256 initial hash value. -/
def sha256InitState : Sha256State :=
  { a := 1779033703, b := 3144134277, c := 1013904242, d := 2773480762,
    e := 1359893119, f := 2600822924, g := 528734635, h := 1541459225 }

/-- Process one 64-byte chunk into the running hash state. -/
def processChunk (hs : Sha256State) (chunk : List Nat) : Sha256State :=
  let st := (sha256K.zip (fullSchedule (chunkWords chunk))).foldl compressStep hs
  { a := w32 (hs.a + st.a), b := w32 (hs.b + st.b), c := w32 (hs.c + st.c),
    d := w32 (hs.d + st.d), e := w32 (hs.e + st.e), f := w32 (hs.f + st.f),
    g := w32 (hs.g + st.g), h := w32 (hs.h + st.h) }

/-- Big-endian bytes of one 32-bit word. -/
def wordBytes (word : Nat) : List Nat :=
  [(word >>> 24) &&& 0xFF, (word >>> 16) &&& 0xFF, (word >>> 8) &&& 0xFF,
   word &&& 0xFF]

/-- The 32 digest bytes of SHA-256 over a byte message. -/
def sha256Bytes (msg : List Nat) : List Nat :=
  let fin := (toChunks (sha256Pad msg)).foldl processChunk sha256InitState
  wordBytes fin.a ++ wordBytes fin.b ++ wordBytes fin.c ++ wordBytes fin.d ++
  wordBytes fin.e ++ wordBytes fin.f ++ wordBytes fin.g ++ wordBytes fin.h

/-- The sixteen lowercase hex digits. -/
def hexDigitChar (n : Nat) : Char := "0123456789abcdef".data.getD n '0'

/-- Lowercase two-digit hex of one byte, as in
`b.toString(16).padStart(2, '0')`. -/
def byteToHex (b : Nat) : String :=
  String.mk [hexDigitChar (b / 16 % 16), hexDigitChar (b % 16)]

/-- Embedding of `hashString` from `src/lib/deviceFingerprint.ts`: SHA-256 of
the UTF-8 bytes, rendered as lowercase hex. -/
def hashString (s : String) : String :=
  String.join ((sha256Bytes (stringToBytes s)).map byteToHex)

/-- Embedding of `generateDeviceFingerprint`: hash of the serialized signal
record. -/
def generateDeviceFingerprint (d : FingerprintData) : String :=
  hashString (serializeFingerprintData d)

/-- A concrete signal record used by witness instantiations. -/
def testFingerprintData : FingerprintData :=
  { userAgent := "Mozilla/5.0", language := "en-US", platform := "Linux",
    screenResolution := "1920x1080x1920x1040", timezone := "Asia/Kolkata",
    cookiesEnabled := true, colorDepth := 24, deviceMemory := some 8,
    hardwareConcurrency := some 4, touchSupport := false,
    webglVendor := some "Intel", webglRenderer := some "Mesa",
    canvasHash := some "abc123" }

/-- A clean GPS position (accuracy 12, no quality warnings) used by witness
instantiations. -/
def cleanPosition : GeolocationPosition :=
  { coords :=
      { latitude := 19, longitude := 72, accuracy := 12,
        altitude := none, altitudeAccuracy := none, heading := none,
        speed := none },
    timestamp := 0 }

/-- A clean GPS position whose latitude differs from `cleanPosition` by
`1e-7` degrees. -/
def cleanPositionJittered : GeolocationPosition :=
  { coords :=
      { latitude := mkRat 190000001 10000000, longitude := 72, accuracy := 12,
        altitude := none, altitudeAccuracy := none, heading := none,
        speed := none },
    timestamp := 800 }

/-- C1: `analyzeLocationSamples` is not suspicious on fewer than 2 samples;
on 2 or more samples it is suspicious with the static-readings reason exactly
when every sample's latitude, longitude and accuracy equal the first
sample's, and not suspicious in every other case. -/
theorem analyzeLocationSamples_spec (samples : List GeolocationPosition) :
    (samples.length < 2 → (analyzeLocationSamples samples).isSuspicious = false) ∧
    (2 ≤ samples.length → staticSamples samples →
      analyzeLocationSamples samples =
        { isSuspicious := true, reason := staticReadingsReason }) ∧
    (2 ≤ samples.length → ¬ staticSamples samples →
      (analyzeLocationSamples samples).isSuspicious = false) := by
  match samples with
  | [] =>
    refine ⟨fun _ => rfl, fun h => absurd h (by simp), fun h => absurd h (by simp)⟩
  | s0 :: rest =>
    have hiff : staticSamples (s0 :: rest) ↔
        (((s0 :: rest).all fun s =>
            decide (s.coords.latitude = s0.coords.latitude ∧
                    s.coords.longitude = s0.coords.longitude)) = true ∧
         ((s0 :: rest).all fun s =>
            decide (s.coords.accuracy = s0.coords.accuracy)) = true) := by
      simp only [staticSamples, List.all_eq_true, decide_eq_true_eq]
      constructor
      · intro h
        exact ⟨fun s hs => ⟨(h s hs).1, (h s hs).2.1⟩, fun s hs => (h s hs).2.2⟩
      · intro h s hs
        exact ⟨(h.1 s hs).1, (h.1 s hs).2, h.2 s hs⟩
    refine ⟨fun h => ?_, fun h hstatic => ?_, fun h hnstatic => ?_⟩
    · simp only [analyzeLocationSamples]
      rw [if_pos h]
    · simp only [analyzeLocationSamples]
      rw [if_neg (Nat.not_lt.mpr h), if_pos (hiff.mp hstatic).1,
        if_pos (hiff.mp hstatic).2]
    · simp only [analyzeLocationSamples]
      rw [if_neg (Nat.not_lt.mpr h)]
      by_cases h1 : ((s0 :: rest).all fun s =>
          decide (s.coords.latitude = s0.coords.latitude ∧
                  s.coords.longitude = s0.coords.longitude)) = true
      · rw [if_pos h1]
        by_cases h2 : ((s0 :: rest).all fun s =>
            decide (s.coords.accuracy = s0.coords.accuracy)) = true
        · exact absurd (hiff.mpr ⟨h1, h2⟩) hnstatic
        · rw [if_neg h2]
      · rw [if_neg h1]

/-- Witness: three identical samples are flagged suspicious with the
static-readings reason. -/
theorem analyzeLocationSamples_spec_witness :
    2 ≤ ([testPosition, testPosition, testPosition] : List GeolocationPosition).length ∧
    staticSamples [testPosition, testPosition, testPosition] ∧
    analyzeLocationSamples [testPosition, testPosition, testPosition] =
      { isSuspicious := true, reason := staticReadingsReason } :=
  ⟨by decide, by decide,
    (analyzeLocationSamples_spec _).2.1 (by decide) (by decide)⟩

/-- C4: for every reading, the warnings of `validateGPSReading` are exactly
one entry per holding condition (zero accuracy; accuracy below 1; null
altitude with accuracy below 10; speed above 100), `isValid` holds exactly
when the warnings are empty, and the claim's particular readings behave as
stated. -/
theorem validateGPSReading_spec :
    (∀ coords : GeolocationCoordinates,
      ((validateGPSReading coords).warnings =
        (if coords.accuracy = 0 then ["GPS accuracy is exactly 0 — likely spoofed"] else []) ++
        (if coords.accuracy < 1 then ["GPS accuracy is suspiciously precise"] else []) ++
        (if coords.altitude = none ∧ coords.accuracy < 10 then
          ["High accuracy but no altitude data — possible spoofing"] else []) ++
        (match coords.speed with
         | some sp => if 100 < sp then ["Unrealistic movement speed detected"] else []
         | none => [])) ∧
      ((validateGPSReading coords).isValid = true ↔
        (validateGPSReading coords).warnings = [])) ∧
    (validateGPSReading readingAccuracyZero).warnings =
      ["GPS accuracy is exactly 0 — likely spoofed",
       "GPS accuracy is suspiciously precise"] ∧
    (validateGPSReading readingAccuracyHalf).warnings =
      ["GPS accuracy is suspiciously precise"] ∧
    (validateGPSReading readingAccuracyFiveNoAltitude).warnings =
      ["High accuracy but no altitude data — possible spoofing"] ∧
    (validateGPSReading readingAccuracyFiftyNoAltitude).warnings = [] ∧
    (validateGPSReading readingSpeed150).warnings =
      ["Unrealistic movement speed detected"] := by
  refine ⟨fun coords => ?_, by decide, by decide, by decide, by decide, by decide⟩
  obtain ⟨lat, lon, acc, alt, altAcc, hd, sp⟩ := coords
  constructor
  · cases sp <;> simp only [validateGPSReading] <;> split_ifs <;> simp
  · cases sp <;> simp only [validateGPSReading] <;> split_ifs <;>
      simp [List.isEmpty_iff]

/-- C5: with no stored fingerprint, `verifyDeviceConsistency` adopts the
current fingerprint as baseline and is consistent with `storedFingerprint`
absent; with a stored fingerprint, the store is unchanged and consistency
holds exactly on exact string equality.  `verifyDevice` in `DeviceVerifier`
mirrors this behaviour. -/
theorem verifyDeviceConsistency_spec (current : String) (store : Option String) :
    (store = none →
      verifyDeviceConsistency current store =
        ({ isConsistent := true, currentFingerprint := current,
           storedFingerprint := none }, some current)) ∧
    (∀ stored, store = some stored →
      (verifyDeviceConsistency current store).2 = store ∧
      ((verifyDeviceConsistency current store).1.isConsistent = true ↔
        current = stored) ∧
      (verifyDeviceConsistency current store).1.storedFingerprint = some stored) ∧
    (store = none →
      verifyDevice current store =
        { status := .verified, reportedVerified := true,
          reportedFingerprint := some current, newStore := some current }) ∧
    (∀ stored, store = some stored →
      (verifyDevice current store).newStore = store ∧
      ((verifyDevice current store).status = .verified ↔ current = stored) ∧
      ((verifyDevice current store).reportedVerified = true ↔ current = stored)) := by
  rcases store with _ | stored
  · exact ⟨fun _ => rfl, fun s h => by simp at h, fun _ => rfl, fun s h => by simp at h⟩
  · refine ⟨fun h => by simp at h, ?_, fun h => by simp at h, ?_⟩
    · intro s hs
      obtain rfl : stored = s := by injection hs
      exact ⟨rfl, by simp [verifyDeviceConsistency], by simp [verifyDeviceConsistency]⟩
    · intro s hs
      obtain rfl : stored = s := by injection hs
      by_cases h : current = stored <;> simp [verifyDevice, h]

/-- Witness: first visit adopts the baseline; a differing stored fingerprint
is inconsistent. -/
theorem verifyDeviceConsistency_spec_witness :
    verifyDeviceConsistency "fp1" none =
      ({ isConsistent := true, currentFingerprint := "fp1",
         storedFingerprint := none }, some "fp1") ∧
    ((verifyDeviceConsistency "fp1" (some "fp2")).1.isConsistent = true ↔
      "fp1" = "fp2") ∧
    ((verifyDevice "fp1" (some "fp1")).status = .verified ↔ "fp1" = "fp1") :=
  ⟨(verifyDeviceConsistency_spec "fp1" none).1 rfl,
   ((verifyDeviceConsistency_spec "fp1" (some "fp2")).2.1 "fp2" rfl).2.1,
   ((verifyDeviceConsistency_spec "fp1" (some "fp1")).2.2.2 "fp1" rfl).2.1⟩

/-- Helper: `List.getD` at an index below the length is a member. -/
theorem getD_mem_of_lt {α : Type} (l : List α) (n : Nat) (d : α)
    (h : n < l.length) : l.getD n d ∈ l := by
  induction l generalizing n with
  | nil => simp at h
  | cons a t ih =>
    cases n with
    | zero => simp [List.getD]
    | succ m =>
      have : t.getD m d ∈ t := ih m (by simpa using h)
      simp only [List.getD, List.get?] at this ⊢
      exact List.mem_cons_of_mem a this

/-- C6: `generateSecureCode` returns one character per random draw, and every
character comes from the 32-character alphabet, so it is never `0`, `O`, `I`
or `1`. -/
theorem generateSecureCode_spec (draws : List Nat) :
    (generateSecureCode draws).length = draws.length ∧
    ∀ c ∈ (generateSecureCode draws).data,
      c ∈ ALPHANUMERIC.data ∧ c ≠ '0' ∧ c ≠ 'O' ∧ c ≠ 'I' ∧ c ≠ '1' := by
  constructor
  · show (draws.map fun v =>
      ALPHANUMERIC.data.getD (v % ALPHANUMERIC.data.length) 'A').length = draws.length
    exact List.length_map _ _
  · intro c hc
    have hc2 : c ∈ draws.map
        (fun v => ALPHANUMERIC.data.getD (v % ALPHANUMERIC.data.length) 'A') := hc
    rw [List.mem_map] at hc2
    obtain ⟨v, _, rfl⟩ := hc2
    have hlen : v % ALPHANUMERIC.data.length < ALPHANUMERIC.data.length :=
      Nat.mod_lt _ (by decide)
    have hmem := getD_mem_of_lt ALPHANUMERIC.data _ 'A' hlen
    have hchars : ∀ x ∈ ALPHANUMERIC.data,
        x ≠ '0' ∧ x ≠ 'O' ∧ x ≠ 'I' ∧ x ≠ '1' := by decide
    exact ⟨hmem, hchars _ hmem⟩

/-- Witness: a three-draw code has three characters, and the alphabet member
produced by the second draw avoids the confusable characters. -/
theorem generateSecureCode_spec_witness :
    (generateSecureCode [0, 33, 999]).length = 3 ∧
    ('B' ∈ ALPHANUMERIC.data ∧ 'B' ≠ '0' ∧ 'B' ≠ 'O' ∧ 'B' ≠ 'I' ∧ 'B' ≠ '1') := by
  constructor
  · simpa using (generateSecureCode_spec [0, 33, 999]).1
  · exact (generateSecureCode_spec [0, 33, 999]).2 'B' (by decide)

/-- C7: the uniqueness-violation code `23505` produces the distinct
already-recorded message, leaves the form state at its pre-submit value and
does not invoke `onSubmit`; every other insert error also leaves the state
unchanged without `onSubmit` and surfaces the catch-block failure message,
which differs from the duplicate message. -/
theorem handleFormSubmit_spec :
    (∀ message, handleFormSubmit (.dbError "23505" message) =
      { finalState := initialFormState, onSubmitCalled := false,
        toast := .errorMsg duplicateAttendanceMessage }) ∧
    (∀ code message, code ≠ "23505" →
      handleFormSubmit (.dbError code message) =
        { finalState := initialFormState, onSubmitCalled := false,
          toast := .errorMsg
            (if message.isEmpty then "Failed to record attendance" else message) }) ∧
    (∀ code message,
      (handleFormSubmit (.dbError code message)).finalState = initialFormState ∧
      (handleFormSubmit (.dbError code message)).finalState.isSubmitted = false ∧
      (handleFormSubmit (.dbError code message)).onSubmitCalled = false) ∧
    duplicateAttendanceMessage ≠ "Failed to record attendance" ∧
    (handleFormSubmit .ok).finalState.isSubmitted = true ∧
    (handleFormSubmit .ok).onSubmitCalled = true := by
  refine ⟨fun message => by simp [handleFormSubmit, initialFormState],
    fun code message h => by simp [handleFormSubmit, initialFormState, h],
    fun code message => ?_, by decide, rfl, rfl⟩
  by_cases h : code = "23505" <;> simp [handleFormSubmit, initialFormState, h]

/-- Witness: a duplicate insert and a distinct failing insert, at concrete
codes and messages. -/
theorem handleFormSubmit_spec_witness :
    handleFormSubmit (.dbError "23505" "conflict") =
      { finalState := initialFormState, onSubmitCalled := false,
        toast := .errorMsg duplicateAttendanceMessage } ∧
    handleFormSubmit (.dbError "999" "") =
      { finalState := initialFormState, onSubmitCalled := false,
        toast := .errorMsg "Failed to record attendance" } := by
  refine ⟨handleFormSubmit_spec.1 "conflict", ?_⟩
  have h := handleFormSubmit_spec.2.1 "999" "" (by decide)
  simpa using h

/-- C8: with both bounds present the time step is valid exactly when the
current instant lies in the inclusive window, reports the session start when
early, reports the ended message when late, and surfaces the ceiling of the
remaining minutes while valid; with a missing bound it is trivially valid. -/
theorem timeWindowCheck_spec (now startMs endMs : ℤ) :
    ((timeWindowCheck now (some startMs) (some endMs)).isValid = true ↔
      startMs ≤ now ∧ now ≤ endMs) ∧
    (now < startMs →
      timeWindowCheck now (some startMs) (some endMs) =
        { isValid := false, message := .startsAt startMs }) ∧
    (startMs ≤ endMs → endMs < now →
      timeWindowCheck now (some startMs) (some endMs) =
        { isValid := false, message := .ended }) ∧
    (startMs ≤ now → now ≤ endMs →
      timeWindowCheck now (some startMs) (some endMs) =
        { isValid := true,
          message := .remaining ⌈((endMs - now : ℚ)) / 60000⌉ }) ∧
    (∀ s e : Option ℤ, s = none ∨ e = none →
      timeWindowCheck now s e = { isValid := true, message := .active }) := by
  refine ⟨?_, ?_, ?_, ?_, ?_⟩
  · simp only [timeWindowCheck]
    split_ifs with h1 h2 <;> simp <;> omega
  · intro h
    simp only [timeWindowCheck]
    rw [if_pos h]
  · intro hwf h
    simp only [timeWindowCheck]
    rw [if_neg (by omega), if_pos h]
  · intro h1 h2
    simp only [timeWindowCheck]
    rw [if_neg (by omega), if_neg (by omega)]
  · rintro s e (rfl | rfl)
    · rfl
    · cases s <;> rfl

/-- Witness: an instant inside the window with exactly one minute left. -/
theorem timeWindowCheck_spec_witness :
    (0 : ℤ) ≤ 0 ∧ (0 : ℤ) ≤ 60000 ∧
    timeWindowCheck 0 (some 0) (some 60000) =
      { isValid := true, message := .remaining 1 } := by
  refine ⟨le_refl 0, by decide, ?_⟩
  have h := (timeWindowCheck_spec 0 0 60000).2.2.2.1 (le_refl 0) (by decide)
  rw [h]
  norm_num

/-- C2: whenever the collected samples are flagged suspicious by the sample
analysis (the API-integrity probe having passed, since otherwise no samples
are collected), `verifyLocation` ends in the terminal `spoofed` status and
reports failure upward, with no coordinates, never reaching `verified` and
never consulting the distance computation — whatever the configured target
geofence. -/
theorem verifyLocation_spoofed_spec (spoofCheck : SpoofCheckResult)
    (samples : List GeolocationPosition)
    (targetLocation : Option TargetLocation)
    (hspoof : spoofCheck.isSuspicious = false)
    (hsusp : (analyzeLocationSamples samples).isSuspicious = true) :
    verifyLocation true spoofCheck (.ok samples) targetLocation =
      { status := .spoofed, reportedVerified := false, reportedCoords := none,
        spoofWarnings := [(analyzeLocationSamples samples).reason],
        distanceChecked := false } := by
  simp [verifyLocation, hspoof, hsusp]

/-- Witness: three identical samples with a configured 200 m geofence end in
`spoofed` with failure reported and no distance check. -/
theorem verifyLocation_spoofed_spec_witness :
    (⟨false, []⟩ : SpoofCheckResult).isSuspicious = false ∧
    (analyzeLocationSamples [testPosition, testPosition, testPosition]).isSuspicious = true ∧
    verifyLocation true ⟨false, []⟩
        (.ok [testPosition, testPosition, testPosition])
        (some { lat := 19, lng := 72, radiusMeters := 200 }) =
      { status := .spoofed, reportedVerified := false, reportedCoords := none,
        spoofWarnings := [staticReadingsReason], distanceChecked := false } := by
  refine ⟨rfl, by decide, ?_⟩
  have h := verifyLocation_spoofed_spec ⟨false, []⟩
    [testPosition, testPosition, testPosition]
    (some { lat := 19, lng := 72, radiusMeters := 200 }) rfl (by decide)
  rw [h]
  decide

/-- C3: the student attendance page passes no target geofence to
`LocationVerifier`, so every run whose API probe passes, whose samples are
collected without error and are not flagged static resolves `verified` with
the raw coordinates of the last sample and never reaches the radius
comparison; the page's callback then marks the Location step verified and
stores the raw coordinates. -/
theorem studentAttendance_location_spec (spoofCheck : SpoofCheckResult)
    (samples : List GeolocationPosition) (position : GeolocationPosition)
    (hspoof : spoofCheck.isSuspicious = false)
    (hsusp : (analyzeLocationSamples samples).isSuspicious = false)
    (hlast : samples.getLast? = some position) :
    verifyLocation true spoofCheck (.ok samples) studentAttendanceTargetLocation =
      { status := .verified, reportedVerified := true,
        reportedCoords := some position.coords,
        spoofWarnings :=
          if (validateGPSReading position.coords).isValid then []
          else (validateGPSReading position.coords).warnings,
        distanceChecked := false } ∧
    handleLocationVerification true (some position.coords) =
      (.verified, some (position.coords.latitude, position.coords.longitude)) := by
  constructor
  · simp [verifyLocation, hspoof, hsusp, hlast, studentAttendanceTargetLocation]
  · rfl

/-- Witness: two clean samples differing by `1e-7` degrees of latitude
resolve `verified` on the student page with the last raw coordinates. -/
theorem studentAttendance_location_spec_witness :
    (⟨false, []⟩ : SpoofCheckResult).isSuspicious = false ∧
    (analyzeLocationSamples [cleanPosition, cleanPositionJittered]).isSuspicious = false ∧
    [cleanPosition, cleanPositionJittered].getLast? = some cleanPositionJittered ∧
    verifyLocation true ⟨false, []⟩ (.ok [cleanPosition, cleanPositionJittered])
        studentAttendanceTargetLocation =
      { status := .verified, reportedVerified := true,
        reportedCoords := some cleanPositionJittered.coords,
        spoofWarnings := [], distanceChecked := false } := by
  refine ⟨rfl, by decide, by decide, ?_⟩
  have h := (studentAttendance_location_spec ⟨false, []⟩
    [cleanPosition, cleanPositionJittered] cleanPositionJittered rfl
    (by decide) (by decide)).1
  rw [h]
  decide

/-- C9: fingerprint computation is deterministic — equal signal records
serialize to the identical canonical string and hash to the identical
lowercase-hex SHA-256 value. -/
theorem generateDeviceFingerprint_deterministic (d1 d2 : FingerprintData)
    (h : d1 = d2) :
    serializeFingerprintData d1 = serializeFingerprintData d2 ∧
    generateDeviceFingerprint d1 = generateDeviceFingerprint d2 := by
  subst h
  exact ⟨rfl, rfl⟩

/-- Witness: determinism at a concrete signal record. -/
theorem generateDeviceFingerprint_deterministic_witness :
    serializeFingerprintData testFingerprintData =
      serializeFingerprintData testFingerprintData ∧
    generateDeviceFingerprint testFingerprintData =
      generateDeviceFingerprint testFingerprintData :=
  generateDeviceFingerprint_deterministic testFingerprintData testFingerprintData rfl

/-- Unfolding of `calculateDistance` through the haversine quantity. -/
theorem calculateDistance_eq_haversine (lat1 lon1 lat2 lon2 : ℝ) :
    calculateDistance lat1 lon1 lat2 lon2 =
      6371e3 * (2 * atan2 (Real.sqrt (haversineA lat1 lon1 lat2 lon2))
        (Real.sqrt (1 - haversineA lat1 lon1 lat2 lon2))) := rfl

/-- The haversine quantity vanishes on identical endpoints. -/
theorem haversineA_self (x y : ℝ) : haversineA x y x y = 0 := by
  simp [haversineA]

/-- The haversine quantity is symmetric in its two endpoints. -/
theorem haversineA_symm (a b c d : ℝ) :
    haversineA a b c d = haversineA c d a b := by
  simp only [haversineA]
  rw [show (a - c) * Real.pi / 180 / 2 = -((c - a) * Real.pi / 180 / 2) by ring,
    show (b - d) * Real.pi / 180 / 2 = -((d - b) * Real.pi / 180 / 2) by ring,
    Real.sin_neg, Real.sin_neg]
  ring

/-- C10: the haversine distance vanishes on identical coordinates, is
symmetric, and the verifier's copy and the export utility's copy compute the
same function. -/
theorem calculateDistance_spec :
    (∀ x y : ℝ, calculateDistance x y x y = 0) ∧
    (∀ a b c d : ℝ, calculateDistance a b c d = calculateDistance c d a b) ∧
    (∀ a b c d : ℝ, calculateDistance a b c d = exportCalculateDistance a b c d) := by
  refine ⟨fun x y => ?_, fun a b c d => ?_, fun a b c d => rfl⟩
  · rw [calculateDistance_eq_haversine, haversineA_self]
    have h0 : atan2 (Real.sqrt 0) (Real.sqrt (1 - 0)) = 0 := by
      rw [show (1 : ℝ) - 0 = 1 by norm_num, Real.sqrt_zero, Real.sqrt_one]
      simp [atan2, Real.arctan_zero]
    rw [h0]
    ring
  · rw [calculateDistance_eq_haversine, calculateDistance_eq_haversine,
      haversineA_symm]
